import Mathlib

/-!
# Verification of the vibe_monitor / cascade_monitor quiescence detector

Shallow embedding of the core logic of `src/vibe_monitor.py` and
`src/cascade_monitor.py`: the debounce tracker (`record_change` /
`check_completion` on `FileChangeHandler` state) and the exclusion filter
(`on_modified`'s folder and file checks).

Python strings are modelled as Lean `String` (a list of unicode code
points, matching Python's code-point indexing for the ASCII data the
program handles); `time.time()` values are modelled as exact integers (the code only
subtracts and compares timestamps); the standard-library path
helpers `os.path.normpath`, `os.path.dirname`, `os.path.basename` are
embedded with POSIX semantics, transcribed from CPython's `posixpath`.
-/

set_option autoImplicit false

namespace VibeMonitor

/-! ## Python string primitives -/

/-- Python `s.startswith(p)` on code-point lists: `p` is a leading segment. -/
def isPrefixL : List Char → List Char → Bool
  | [], _ => true
  | _ :: _, [] => false
  | a :: as, b :: bs => a == b && isPrefixL as bs

/-- Python `sub in hay` (substring containment) on code-point lists. -/
def hasSubL (sub : List Char) : List Char → Bool
  | [] => sub.isEmpty
  | c :: rest => isPrefixL sub (c :: rest) || hasSubL sub rest

/-- Python `s.startswith(p)`. -/
def startsWithS (s p : String) : Bool := isPrefixL p.data s.data

/-- Python `s.endswith(p)`: `p` is a trailing segment. -/
def endsWithS (s p : String) : Bool := isPrefixL p.data.reverse s.data.reverse

/-- Python `sub in hay` for strings. -/
def containsS (hay sub : String) : Bool := hasSubL sub.data hay.data

/-- Python `s[1:]`: drop the first code point. -/
def strDrop1 (s : String) : String := ⟨s.data.drop 1⟩

/-- Python `s.lower()` (exact on the ASCII data the program handles). -/
def pyLower (s : String) : String := ⟨s.data.map Char.toLower⟩

/-- Characters stripped by Python `str.strip()` with no argument
(the ASCII whitespace set). -/
def isPySpace (c : Char) : Bool :=
  c == ' ' || c == '\t' || c == '\n' || c == '\r' || c == '\x0b' || c == '\x0c'

/-- Python `s.strip()`. -/
def pyStrip (s : String) : String :=
  ⟨((s.data.dropWhile isPySpace).reverse.dropWhile isPySpace).reverse⟩

/-! ## posixpath helpers (CPython `posixpath.normpath` / `dirname` / `basename`) -/

/-- Python `path.split('/')`. -/
def splitOnSlash : List Char → List (List Char)
  | [] => [[]]
  | c :: rest =>
    if c == '/' then [] :: splitOnSlash rest
    else
      match splitOnSlash rest with
      | comp :: comps => (c :: comp) :: comps
      | [] => [[c]]

/-- Python `'/'.join(comps)`. -/
def joinSlash : List (List Char) → List Char
  | [] => []
  | [c] => c
  | c :: rest => c ++ '/' :: joinSlash rest

/-- Is the head of the accumulator the component `".."`?
(Python `new_comps and new_comps[-1] == '..'`; the accumulator is kept
reversed, so its head is the last appended component.) -/
def headIsDotdot : List (List Char) → Bool
  | c :: _ => c == ['.', '.']
  | [] => false

/-- The component loop of CPython `posixpath.normpath`: skip `''` and `'.'`
components, keep a `'..'` that cannot be resolved (relative prefix, or
following another kept `'..'`), otherwise let `'..'` pop the previous
component.  `sl` is Python's `initial_slashes` truthiness; the accumulator
is kept reversed. -/
def normComps (sl : Bool) (acc : List (List Char)) : List (List Char) → List (List Char)
  | [] => acc.reverse
  | comp :: rest =>
    if comp == [] || comp == ['.'] then normComps sl acc rest
    else if comp != ['.', '.'] || (!sl && acc.isEmpty) || headIsDotdot acc then
      normComps sl (comp :: acc) rest
    else
      match acc with
      | [] => normComps sl [] rest
      | _ :: acc2 => normComps sl acc2 rest

/-- CPython `posixpath.normpath` on code-point lists. -/
def normpathL (path : List Char) : List Char :=
  if path == [] then ['.']
  else
    let slashes : Nat :=
      if isPrefixL ['/'] path then
        if isPrefixL ['/', '/'] path && !isPrefixL ['/', '/', '/'] path then 2 else 1
      else 0
    let comps := normComps (slashes != 0) [] (splitOnSlash path)
    let joined := List.replicate slashes '/' ++ joinSlash comps
    if joined == [] then ['.'] else joined

/-- `os.path.normpath` (POSIX semantics). -/
def normpath (p : String) : String := ⟨normpathL p.data⟩

/-- `os.path.basename`: the substring after the last `'/'`
(the last `split('/')` component). -/
def basename (p : String) : String := ⟨(splitOnSlash p.data).getLastD []⟩

/-- `os.path.dirname`: everything before the last `'/'`, with trailing
slashes stripped unless the head is all slashes; `""` when there is no
slash.  Transcribed from CPython `posixpath.dirname`. -/
def dirname (p : String) : String :=
  match splitOnSlash p.data with
  | [] => ""
  | [_] => ""
  | c :: c2 :: rest =>
    let head := joinSlash ((c :: c2 :: rest).dropLast) ++ ['/']
    if head.all (· == '/') then ⟨head⟩
    else ⟨(head.reverse.dropWhile (· == '/')).reverse⟩

/-! ## Configuration constants (`DEFAULT_CONFIG` of `vibe_monitor.py`) -/

/-- `DEFAULT_CONFIG["excluded_files"]` of `vibe_monitor.py`; with no
`config.json` on disk this is also `DEFAULT_EXCLUDED_FILES`. -/
def DEFAULT_EXCLUDED_FILES : List String :=
  ["debug.log", ".DS_Store", "Thumbs.db", "*.tmp", "*.temp", "*.swp", "*.lock"]

/-- `DEFAULT_CONFIG["excluded_folders"]` of `vibe_monitor.py`. -/
def DEFAULT_EXCLUDED_FOLDERS : List String :=
  ["node_modules", ".git", "__pycache__", "logs", "tmp", "temp",
   "cache", "dist", "build"]

/-- `DEFAULT_CONFIG["settings"]["default_delay"]` of `vibe_monitor.py`. -/
def DEFAULT_DELAY : ℤ := 60

/-! ## Data model -/

/-- The mutable state of `FileChangeHandler` (`vibe_monitor.py`, lines
97–103): `last_change` and `has_alerted` are the debounce state, the rest
are set at construction and only read. -/
structure FileChangeHandler where
  last_change : ℤ
  has_alerted : Bool
  sound_key : String
  excluded_files : List String
  excluded_folders : List String
  delay : ℤ
deriving DecidableEq, Repr

/-- A watchdog file-system event as `on_modified` consumes it:
`event.src_path` and `event.is_directory`. -/
structure Event where
  src_path : String
  is_directory : Bool
deriving DecidableEq, Repr

/-! ## Exclusion filter (`on_modified`, `vibe_monitor.py` lines 105–128) -/

/-- One iteration of the excluded-folder loop (lines 113–115): the rule is
normalized and lowercased, and matches when the already-normalized directory
starts with it or contains it as a substring. -/
def folderMatch (excluded_folder file_dir_normalized : String) : Bool :=
  let efn := pyLower (normpath excluded_folder)
  startsWithS file_dir_normalized efn || containsS file_dir_normalized efn

/-- The whole folder check of `on_modified` (lines 111–116), as a function of
the rules and the event's `src_path`: normalize and lowercase the containing
directory, then return on the first matching rule. -/
def folder_excluded (excluded_folders : List String) (src_path : String) : Bool :=
  let file_dir_normalized := pyLower (normpath (dirname src_path))
  excluded_folders.any (fun ef => folderMatch ef file_dir_normalized)

/-- One iteration of the excluded-file loop (lines 119–124): wildcard
patterns (`pattern.startswith("*")`) match by `file_name.endswith(pattern[1:])`,
anything else by exact equality. -/
def fileMatch (excluded_pattern file_name : String) : Bool :=
  (startsWithS excluded_pattern "*" && endsWithS file_name (strDrop1 excluded_pattern))
    || excluded_pattern == file_name

/-- The whole file check of `on_modified` (lines 118–124). -/
def file_excluded (excluded_files : List String) (file_name : String) : Bool :=
  excluded_files.any (fun p => fileMatch p file_name)

/-! ## Debounce tracker -/

/-- Lines 127–128 of `on_modified` (the spec's `record_change()`): set
`last_change` to the current time and clear the `has_alerted` latch. -/
def record_change (h : FileChangeHandler) (now : ℤ) : FileChangeHandler :=
  { h with last_change := now, has_alerted := false }

/-- `FileChangeHandler.on_modified` (lines 105–128): directory events do
nothing; folder-excluded and file-excluded events return early; accepted
events record the change. `now` stands for the `time.time()` read on
line 127. -/
def on_modified (h : FileChangeHandler) (e : Event) (now : ℤ) : FileChangeHandler :=
  if e.is_directory then h
  else
    let file_name := basename e.src_path
    if folder_excluded h.excluded_folders e.src_path then h
    else if file_excluded h.excluded_files file_name then h
    else record_change h now

/-- `FileChangeHandler.check_completion` (lines 130–137): when the latch is
clear and `now - last_change >= delay`, play the configured sound key and set
the latch; otherwise do nothing.  The second component is the sound key
passed to `play_system_sound`, `none` when no notification fires. -/
def check_completion (h : FileChangeHandler) (now : ℤ) :
    FileChangeHandler × Option String :=
  if !h.has_alerted && decide (now - h.last_change ≥ h.delay) then
    ({ h with has_alerted := true }, some h.sound_key)
  else (h, none)

/-- `FileChangeHandler.__init__` (lines 97–103).  The optional
`excluded_files` / `excluded_folders` arguments default to `None`; Python's
`excluded_files or DEFAULT_EXCLUDED_FILES` substitutes the default for any
falsy argument, i.e. for `None` and for the empty list. -/
def pyListOr (v : Option (List String)) (dflt : List String) : List String :=
  match v with
  | none => dflt
  | some [] => dflt
  | some (x :: xs) => x :: xs

/-- Construction of a `FileChangeHandler` at time `t0`
(`self.last_change = time.time()`, `self.has_alerted = False`). -/
def initHandler (sound_key : String) (excluded_files excluded_folders : Option (List String))
    (delay : ℤ) (t0 : ℤ) : FileChangeHandler :=
  { last_change := t0
    has_alerted := false
    sound_key := sound_key
    excluded_files := pyListOr excluded_files DEFAULT_EXCLUDED_FILES
    excluded_folders := pyListOr excluded_folders DEFAULT_EXCLUDED_FOLDERS
    delay := delay }

/-- The CLI override parsing of `main` (`vibe_monitor.py` line 170):
`[line.strip() for line in f if line.strip() and not line.strip().startswith('#')]`. -/
def parseExcludeLines (lines : List String) : List String :=
  lines.filterMap (fun line =>
    let s := pyStrip line
    if s != "" && !startsWithS s "#" then some s else none)

/-! ## Notifier (`play_system_sound`, `vibe_monitor.py` lines 139–156)

`play_system_sound` never propagates an exception: a missing sound file
is reported and returns early (lines 143–145), and any playback-backend
error is caught by the `except Exception` handler (lines 155–156).  The
file-system and audio backend are modelled as an environment record. -/

/-- Environment seen by `play_system_sound`: whether the file the sound key
resolves to exists (`os.path.exists`), and whether the pygame backend plays
without raising. -/
structure SoundEnv where
  sound_file_exists : String → Bool
  backend_ok : Bool

/-- Outcome of one `play_system_sound` call — always a value, never an
exception. -/
inductive PlayResult where
  | fileMissing
  | backendError
  | played
deriving DecidableEq, Repr

/-- `play_system_sound` (lines 139–156): missing file → log and return;
backend raises → caught and logged; otherwise the sound plays to
completion. -/
def play_system_sound (env : SoundEnv) (sound_key : String) : PlayResult :=
  if !env.sound_file_exists sound_key then .fileMissing
  else if !env.backend_ok then .backendError
  else .played

/-- `check_completion` together with the `play_system_sound` call it makes
(line 136): since `play_system_sound` never raises, line 137
(`self.has_alerted = True`) runs whenever the branch is taken, whatever the
playback outcome. -/
def check_completion_io (h : FileChangeHandler) (now : ℤ) (env : SoundEnv) :
    FileChangeHandler × Option PlayResult :=
  let r := check_completion h now
  (r.1, r.2.map (fun key => play_system_sound env key))

/-! ## Operation traces (for the reachable-state invariant) -/

/-- One observable operation on the debounce state: an accepted change
(`record_change`, i.e. the tail of `on_modified`) at a given time, or a
`check_completion` poll at a given time. -/
inductive Op where
  | change (now : ℤ)
  | check (now : ℤ)

/-- Run a list of operations.  The `Nat` component counts the alerts fired
since the most recent accepted change (reset to `0` by every `change`). -/
def runCount : FileChangeHandler → Nat → List Op → FileChangeHandler × Nat
  | h, k, [] => (h, k)
  | h, _, .change t :: ops => runCount (record_change h t) 0 ops
  | h, k, .check t :: ops =>
    let r := check_completion h t
    runCount r.1 (k + (if r.2.isSome then 1 else 0)) ops

end VibeMonitor

namespace CascadeMonitor

/-!  ## `cascade_monitor.py` (the legacy variant)

Its `FileChangeHandler` carries only the debounce state; the exclusion
lists and the delay are module-level constants.  The folder check (lines
51–56) is identical to the newer variant; the file check (lines 58–59) is a
raw substring containment test:
`any(excluded in file_name for excluded in EXCLUDED_FILES)`. -/

/-- `DELAY` (`cascade_monitor.py` line 13). -/
def DELAY : ℤ := 60

/-- `EXCLUDED_FILES` (`cascade_monitor.py` lines 16–19). -/
def EXCLUDED_FILES : List String :=
  ["debug.log", "wc-image-regeneration-2025-03-11-2d23918eaa6bf399fc1a4734d3e73c71.log"]

/-- One element of the legacy file check (line 58): `excluded in file_name`,
raw substring containment of the rule in the file name. -/
def cascadeFileMatch (excluded file_name : String) : Bool :=
  VibeMonitor.containsS file_name excluded

/-- The legacy file check (lines 58–59). -/
def file_excluded (file_name : String) : Bool :=
  EXCLUDED_FILES.any (fun ex => cascadeFileMatch ex file_name)

end CascadeMonitor

open VibeMonitor

/-! ## Helper lemmas (shared across the claim theorems) -/

/-- Firing case of `check_completion`: latch clear and quiet period elapsed. -/
theorem check_completion_fire_eq (h : FileChangeHandler) (now : ℤ)
    (h1 : h.has_alerted = false) (h2 : now - h.last_change ≥ h.delay) :
    check_completion h now = ({ h with has_alerted := true }, some h.sound_key) := by
  simp [check_completion, h1, h2]

/-- No-op case of `check_completion`: latch already set, or quiet period not
elapsed. -/
theorem check_completion_noop_eq (h : FileChangeHandler) (now : ℤ)
    (hn : h.has_alerted = true ∨ now - h.last_change < h.delay) :
    check_completion h now = (h, none) := by
  rcases hn with h1 | h2
  · simp [check_completion, h1]
  · simp [check_completion, not_le.mpr h2]

/-- Directory events are not processed by `on_modified`. -/
theorem on_modified_dir_eq (h : FileChangeHandler) (e : Event) (now : ℤ)
    (hd : e.is_directory = true) : on_modified h e now = h := by
  simp [on_modified, hd]

/-- A file event caught by the folder check returns early. -/
theorem on_modified_folder_eq (h : FileChangeHandler) (e : Event) (now : ℤ)
    (hd : e.is_directory = false)
    (hf : folder_excluded h.excluded_folders e.src_path = true) :
    on_modified h e now = h := by
  simp [on_modified, hd, hf]

/-- A file event that passes the folder check but is caught by the file
check returns early. -/
theorem on_modified_file_eq (h : FileChangeHandler) (e : Event) (now : ℤ)
    (hd : e.is_directory = false)
    (hf : folder_excluded h.excluded_folders e.src_path = false)
    (hp : file_excluded h.excluded_files (basename e.src_path) = true) :
    on_modified h e now = h := by
  simp [on_modified, hd, hf, hp]

/-- An accepted file event records the change. -/
theorem on_modified_accept_eq (h : FileChangeHandler) (e : Event) (now : ℤ)
    (hd : e.is_directory = false)
    (hf : folder_excluded h.excluded_folders e.src_path = false)
    (hp : file_excluded h.excluded_files (basename e.src_path) = false) :
    on_modified h e now = record_change h now := by
  simp [on_modified, hd, hf, hp]

/-- Inductive invariant for `runCount`: if the latch agrees with "some alert
fired since the most recent accepted change" and at most one such alert has
fired, the same holds after running any further operations. -/
theorem runCount_inv (ops : List Op) :
    ∀ (h : FileChangeHandler) (k : ℕ),
      (h.has_alerted = true ↔ k ≠ 0) → k ≤ 1 →
      ((runCount h k ops).1.has_alerted = true ↔ (runCount h k ops).2 ≠ 0) ∧
        (runCount h k ops).2 ≤ 1 := by
  induction ops with
  | nil => exact fun h k h1 h2 => ⟨h1, h2⟩
  | cons op ops ih =>
    intro h k h1 h2
    cases op with
    | change t =>
      exact ih _ 0 (by simp [record_change]) (by norm_num)
    | check t =>
      by_cases hal : h.has_alerted = true
      · have hnoop := check_completion_noop_eq h t (Or.inl hal)
        simpa [runCount, hnoop] using ih h k h1 h2
      · have hal2 : h.has_alerted = false := by
          cases hhal : h.has_alerted
          · rfl
          · exact absurd hhal hal
        have hk : k = 0 := by
          by_contra hk
          exact hal (h1.mpr hk)
        by_cases hge : t - h.last_change ≥ h.delay
        · have hfire := check_completion_fire_eq h t hal2 hge
          simpa [runCount, hfire, hk] using ih _ 1 (by simp) (by norm_num)
        · have hnoop := check_completion_noop_eq h t (Or.inr (not_le.mp hge))
          simpa [runCount, hnoop] using ih h k h1 h2

/-! ## Claim theorems -/

/-- C1: `check_completion` fires a notification — emitting the configured
sound key and setting `has_alerted` — exactly when the latch is clear and
`now - last_change ≥ delay`; in every other case it returns the state
unchanged and emits nothing.  Consequently, after any sequence of
`record_change` calls, a `check_completion` at a time strictly inside the
quiet threshold fires nothing. -/
theorem check_completion_fires_iff (h : FileChangeHandler) (now : ℤ) :
    (h.has_alerted = false ∧ now - h.last_change ≥ h.delay →
        check_completion h now = ({ h with has_alerted := true }, some h.sound_key)) ∧
    (¬ (h.has_alerted = false ∧ now - h.last_change ≥ h.delay) →
        check_completion h now = (h, none)) ∧
    (∀ ts : List ℤ,
        now - (ts.foldl record_change h).last_change < (ts.foldl record_change h).delay →
        (check_completion (ts.foldl record_change h) now).2 = none) := by
  refine ⟨fun ⟨h1, h2⟩ => check_completion_fire_eq h now h1 h2, fun hn => ?_, fun ts hlt => ?_⟩
  · cases hal : h.has_alerted
    · have hlt : now - h.last_change < h.delay := by
        by_contra hge
        exact hn ⟨hal, not_lt.mp hge⟩
      exact check_completion_noop_eq h now (Or.inr hlt)
    · exact check_completion_noop_eq h now (Or.inl hal)
  · rw [check_completion_noop_eq _ now (Or.inr hlt)]

/-- Witness for C1, at the default threshold of 60: a handler with a change
at time 0 fires at time 65, does not fire at time 10, and after a
`record_change` at time 5 a check at time 30 fires nothing. -/
theorem check_completion_fires_iff_witness :
    check_completion ⟨0, false, "jobs-done", [], [], 60⟩ 65
        = (⟨0, true, "jobs-done", [], [], 60⟩, some "jobs-done") ∧
    check_completion ⟨0, false, "jobs-done", [], [], 60⟩ 10
        = (⟨0, false, "jobs-done", [], [], 60⟩, none) ∧
    (check_completion (List.foldl record_change ⟨0, false, "jobs-done", [], [], 60⟩ [5]) 30).2
        = none :=
  ⟨(check_completion_fires_iff ⟨0, false, "jobs-done", [], [], 60⟩ 65).1 ⟨rfl, by decide⟩,
   (check_completion_fires_iff ⟨0, false, "jobs-done", [], [], 60⟩ 10).2.1 (by decide),
   (check_completion_fires_iff ⟨0, false, "jobs-done", [], [], 60⟩ 30).2.2 [5] (by decide)⟩

/-- C2: once the latch is set, every further `check_completion`, at any
time, is a no-op; after a `record_change` clears the latch, a quiet period
of at least the threshold makes the next `check_completion` fire exactly
once — the call after it, at any time, fires nothing. -/
theorem alerted_latch_semantics (h : FileChangeHandler) (c t t2 : ℤ)
    (hal : h.has_alerted = true) (hge : t - c ≥ h.delay) :
    (∀ u : ℤ, check_completion h u = (h, none)) ∧
    (check_completion (record_change h c) t).2 = some h.sound_key ∧
    check_completion (check_completion (record_change h c) t).1 t2
      = ((check_completion (record_change h c) t).1, none) := by
  have hrec : check_completion (record_change h c) t
      = ({ record_change h c with has_alerted := true }, some h.sound_key) :=
    check_completion_fire_eq (record_change h c) t rfl hge
  refine ⟨fun u => check_completion_noop_eq h u (Or.inl hal), by rw [hrec], ?_⟩
  rw [hrec]
  exact check_completion_noop_eq _ t2 (Or.inl rfl)

/-- Witness for C2: an alerted handler stays silent at time 300; after a
change at time 100 the check at time 160 fires, and a repeat at time 1000
is a no-op. -/
theorem alerted_latch_semantics_witness :
    check_completion ⟨0, true, "wow", [], [], 60⟩ 300 = (⟨0, true, "wow", [], [], 60⟩, none) ∧
    (check_completion (record_change ⟨0, true, "wow", [], [], 60⟩ 100) 160).2 = some "wow" ∧
    check_completion (check_completion (record_change ⟨0, true, "wow", [], [], 60⟩ 100) 160).1 1000
      = ((check_completion (record_change ⟨0, true, "wow", [], [], 60⟩ 100) 160).1, none) :=
  ⟨(alerted_latch_semantics ⟨0, true, "wow", [], [], 60⟩ 100 160 1000 rfl (by decide)).1 300,
   (alerted_latch_semantics ⟨0, true, "wow", [], [], 60⟩ 100 160 1000 rfl (by decide)).2.1,
   (alerted_latch_semantics ⟨0, true, "wow", [], [], 60⟩ 100 160 1000 rfl (by decide)).2.2⟩

/-- C3: in every state reachable from the initial state (latch clear,
`last_change` = construction time) by any interleaving of accepted changes
and completion checks, `has_alerted` is true exactly when an alert has fired
and no accepted change has occurred since it (the fired-since-last-change
counter is nonzero), and at most one alert fires per period of inactivity
(that counter never exceeds one). -/
theorem reachable_state_invariant (t0 d : ℤ) (sk : String)
    (efs efo : List String) (ops : List Op) :
    ((runCount ⟨t0, false, sk, efs, efo, d⟩ 0 ops).1.has_alerted = true
        ↔ (runCount ⟨t0, false, sk, efs, efo, d⟩ 0 ops).2 ≠ 0) ∧
    (runCount ⟨t0, false, sk, efs, efo, d⟩ 0 ops).2 ≤ 1 :=
  runCount_inv ops ⟨t0, false, sk, efs, efo, d⟩ 0 (by simp) (by norm_num)

/-- C4: a file event is ignored by the folder stage exactly when the
normalized, lowercased containing directory starts with some normalized,
lowercased rule or contains it as a substring; such events leave the handler
unchanged.  In particular `"/project/node_modules/foo.js"` is ignored under
rule `"node_modules"` regardless of case, while `"/project/src/app.js"` is
accepted and records the change. -/
theorem folder_exclusion_semantics (h : FileChangeHandler) (e : Event) (now : ℤ)
    (folders : List String) (path : String)
    (hfold : h.excluded_folders = ["node_modules"]) (hfile : h.excluded_files = []) :
    (folder_excluded folders path = true ↔
        ∃ f ∈ folders,
          startsWithS (pyLower (normpath (dirname path))) (pyLower (normpath f)) = true ∨
          containsS (pyLower (normpath (dirname path))) (pyLower (normpath f)) = true) ∧
    (e.is_directory = false → folder_excluded h.excluded_folders e.src_path = true →
        on_modified h e now = h) ∧
    on_modified h ⟨"/project/node_modules/foo.js", false⟩ now = h ∧
    on_modified h ⟨"/Project/NODE_MODULES/foo.js", false⟩ now = h ∧
    on_modified h ⟨"/project/src/app.js", false⟩ now = record_change h now := by
  refine ⟨?_, fun hd hf => on_modified_folder_eq h e now hd hf,
          on_modified_folder_eq h _ now rfl (by rw [hfold]; decide),
          on_modified_folder_eq h _ now rfl (by rw [hfold]; decide),
          on_modified_accept_eq h _ now rfl (by rw [hfold]; decide) (by rw [hfile]; decide)⟩
  simp only [folder_excluded, folderMatch, List.any_eq_true, Bool.or_eq_true]

/-- Witness for C4 at a concrete handler: the `node_modules` paths (both
casings) are ignored, the `src` path records the change. -/
theorem folder_exclusion_semantics_witness :
    on_modified ⟨0, false, "jobs-done", [], ["node_modules"], 60⟩
        ⟨"/project/node_modules/foo.js", false⟩ 5 = ⟨0, false, "jobs-done", [], ["node_modules"], 60⟩ ∧
    on_modified ⟨0, false, "jobs-done", [], ["node_modules"], 60⟩
        ⟨"/Project/NODE_MODULES/foo.js", false⟩ 5 = ⟨0, false, "jobs-done", [], ["node_modules"], 60⟩ ∧
    on_modified ⟨0, false, "jobs-done", [], ["node_modules"], 60⟩
        ⟨"/project/src/app.js", false⟩ 5
      = record_change ⟨0, false, "jobs-done", [], ["node_modules"], 60⟩ 5 :=
  ⟨(folder_exclusion_semantics ⟨0, false, "jobs-done", [], ["node_modules"], 60⟩
      ⟨"", false⟩ 5 [] "" rfl rfl).2.2.1,
   (folder_exclusion_semantics ⟨0, false, "jobs-done", [], ["node_modules"], 60⟩
      ⟨"", false⟩ 5 [] "" rfl rfl).2.2.2.1,
   (folder_exclusion_semantics ⟨0, false, "jobs-done", [], ["node_modules"], 60⟩
      ⟨"", false⟩ 5 [] "" rfl rfl).2.2.2.2⟩

/-- C5: a file-exclusion pattern matches exactly when it is a wildcard
pattern (leading `*`) whose remainder is a suffix of the file name, or when
it equals the file name; in particular `"debug.log"` matches itself and not
`"readme.md"`, and `"*.tmp"` matches `"scratch.tmp"` but not
`"scratch.tmp.bak"`. -/
theorem file_pattern_semantics :
    (∀ p n : String,
        fileMatch p n = true ↔
          ((startsWithS p "*" = true ∧ endsWithS n (strDrop1 p) = true) ∨ p = n)) ∧
    fileMatch "debug.log" "debug.log" = true ∧
    fileMatch "debug.log" "readme.md" = false ∧
    fileMatch "*.tmp" "scratch.tmp" = true ∧
    fileMatch "*.tmp" "scratch.tmp.bak" = false := by
  refine ⟨fun p n => ?_, by decide, by decide, by decide, by decide⟩
  simp [fileMatch, Bool.or_eq_true, Bool.and_eq_true, beq_iff_eq]

/-- C6: directory events and excluded file events leave both debounce fields
(`last_change`, `has_alerted`) — indeed the whole handler — unchanged; only
an accepted event resets the timestamp and clears the latch. -/
theorem on_modified_frame (h : FileChangeHandler) (e : Event) (now : ℤ) :
    (e.is_directory = true → on_modified h e now = h) ∧
    (e.is_directory = false → folder_excluded h.excluded_folders e.src_path = true →
        on_modified h e now = h) ∧
    (e.is_directory = false → folder_excluded h.excluded_folders e.src_path = false →
        file_excluded h.excluded_files (basename e.src_path) = true →
        on_modified h e now = h) ∧
    (e.is_directory = false → folder_excluded h.excluded_folders e.src_path = false →
        file_excluded h.excluded_files (basename e.src_path) = false →
        on_modified h e now = record_change h now) :=
  ⟨on_modified_dir_eq h e now, on_modified_folder_eq h e now,
   on_modified_file_eq h e now, on_modified_accept_eq h e now⟩

/-- Witness for C6: a directory event, a folder-excluded event, a
file-pattern-excluded event, and an accepted event, on a handler with the
default exclusion lists. -/
theorem on_modified_frame_witness :
    on_modified (initHandler "jobs-done" none none 60 0) ⟨"/p/src", true⟩ 9
        = initHandler "jobs-done" none none 60 0 ∧
    on_modified (initHandler "jobs-done" none none 60 0) ⟨"/p/node_modules/a.js", false⟩ 9
        = initHandler "jobs-done" none none 60 0 ∧
    on_modified (initHandler "jobs-done" none none 60 0) ⟨"/p/src/debug.log", false⟩ 9
        = initHandler "jobs-done" none none 60 0 ∧
    on_modified (initHandler "jobs-done" none none 60 0) ⟨"/p/src/app.js", false⟩ 9
        = record_change (initHandler "jobs-done" none none 60 0) 9 :=
  ⟨(on_modified_frame (initHandler "jobs-done" none none 60 0) ⟨"/p/src", true⟩ 9).1 rfl,
   (on_modified_frame (initHandler "jobs-done" none none 60 0)
      ⟨"/p/node_modules/a.js", false⟩ 9).2.1 rfl (by decide),
   (on_modified_frame (initHandler "jobs-done" none none 60 0)
      ⟨"/p/src/debug.log", false⟩ 9).2.2.1 rfl (by decide) (by decide),
   (on_modified_frame (initHandler "jobs-done" none none 60 0)
      ⟨"/p/src/app.js", false⟩ 9).2.2.2 rfl (by decide) (by decide)⟩

/-- C7: when `check_completion` fires, the playback call is a total
function of the environment — a missing sound file yields the logged
`fileMissing` outcome and a raising backend the logged `backendError`
outcome, never an exception — and the latch is set to `true` in every case,
so a later check attempts no further playback. -/
theorem notification_failure_nonfatal (h : FileChangeHandler) (now t2 : ℤ)
    (env : SoundEnv) (h1 : h.has_alerted = false) (h2 : now - h.last_change ≥ h.delay) :
    check_completion_io h now env
        = ({ h with has_alerted := true }, some (play_system_sound env h.sound_key)) ∧
    (env.sound_file_exists h.sound_key = false →
        play_system_sound env h.sound_key = PlayResult.fileMissing) ∧
    (env.sound_file_exists h.sound_key = true → env.backend_ok = false →
        play_system_sound env h.sound_key = PlayResult.backendError) ∧
    (check_completion_io { h with has_alerted := true } t2 env).2 = none := by
  refine ⟨?_, fun hm => by simp [play_system_sound, hm], fun he hb => by simp [play_system_sound, he, hb], ?_⟩
  · simp [check_completion_io, check_completion_fire_eq h now h1 h2]
  · simp [check_completion_io, check_completion_noop_eq { h with has_alerted := true } t2 (Or.inl rfl)]

/-- Witness for C7: a handler due to fire at time 60 under an environment
whose sound file is missing still latches, and the follow-up check at time
100 plays nothing. -/
theorem notification_failure_nonfatal_witness :
    check_completion_io ⟨0, false, "jobs-done", [], [], 60⟩ 60 ⟨fun _ => false, true⟩
        = (⟨0, true, "jobs-done", [], [], 60⟩, some PlayResult.fileMissing) ∧
    (check_completion_io ⟨0, true, "jobs-done", [], [], 60⟩ 100 ⟨fun _ => false, true⟩).2 = none := by
  have w := notification_failure_nonfatal ⟨0, false, "jobs-done", [], [], 60⟩ 60 100
    ⟨fun _ => false, true⟩ rfl (by decide)
  exact ⟨by rw [w.1]; rw [w.2.1 rfl], w.2.2.2⟩

/-- C8 counterexample: the empty excluded-folder rule is not a
non-matching pattern.  `os.path.normpath("")` is `"."`, so the rule `""`
matches (by the starts-with arm) any event whose containing directory also
normalizes to `"."` — here the bare relative path `"foo.js"` — and the event
is ignored (the handler is unchanged), whereas without the rule the same
event records the change. -/
theorem empty_rule_counterexample :
    folder_excluded [""] "foo.js" = true ∧
    on_modified ⟨0, false, "jobs-done", [], [""], 60⟩ ⟨"foo.js", false⟩ 5
        = ⟨0, false, "jobs-done", [], [""], 60⟩ ∧
    on_modified ⟨0, false, "jobs-done", [], [], 60⟩ ⟨"foo.js", false⟩ 5
        = ⟨5, false, "jobs-done", [], [], 60⟩ := by decide

/-- C8 amended: the filter is total (no exception paths); an empty
excluded-file pattern matches only the empty file name; but an empty
excluded-folder rule normalizes to `"."` and matches any event whose
normalized containing directory starts with or contains a `'.'` — so an
empty folder rule can cause events to be ignored. -/
theorem malformed_rule_behavior :
    (∀ n : String, fileMatch "" n = true ↔ n = "") ∧
    (∀ d : String, folderMatch "" d = (startsWithS d "." || containsS d ".")) ∧
    folder_excluded [""] "foo.js" = true := by
  have hnp : pyLower (normpath "") = "." := by decide
  have hs : startsWithS "" "*" = false := by decide
  refine ⟨fun n => ?_, fun d => ?_, by decide⟩
  · simp only [fileMatch, hs, Bool.false_and, Bool.false_or, beq_iff_eq]
    exact eq_comm
  · simp [folderMatch, hnp]

/-- C9: the legacy (cascade_monitor, raw substring containment) and the
newer (vibe_monitor, wildcard/exact) file-exclusion tests diverge: there is
a pattern/file-name pair they decide differently. -/
theorem file_matching_divergence :
    ∃ p n : String, CascadeMonitor.cascadeFileMatch p n ≠ VibeMonitor.fileMatch p n :=
  ⟨"debug.log", "my-debug.log.bak", by decide⟩

/-- C10: a CLI override file all of whose lines are blank (after stripping)
or comments parses to the empty list, and constructing the handler with
empty (falsy) exclusion lists silently substitutes the built-in defaults. -/
theorem empty_override_uses_defaults (lines : List String)
    (hc : ∀ l ∈ lines, pyStrip l = "" ∨ startsWithS (pyStrip l) "#" = true) :
    parseExcludeLines lines = [] ∧
    ∀ (sk : String) (d t0 : ℤ),
      (initHandler sk (some (parseExcludeLines lines))
          (some (parseExcludeLines lines)) d t0).excluded_files = DEFAULT_EXCLUDED_FILES ∧
      (initHandler sk (some (parseExcludeLines lines))
          (some (parseExcludeLines lines)) d t0).excluded_folders = DEFAULT_EXCLUDED_FOLDERS := by
  have hnil : parseExcludeLines lines = [] := by
    simp only [parseExcludeLines, List.filterMap_eq_nil_iff]
    intro l hl
    rcases hc l hl with h1 | h2
    · simp [h1]
    · simp [h2]
  refine ⟨hnil, fun sk d t0 => ?_⟩
  rw [hnil]
  exact ⟨rfl, rfl⟩

/-- Witness for C10: a file of one blank line, one comment line and one
whitespace line parses to `[]`, and the handler built from it keeps the
default exclusion lists. -/
theorem empty_override_uses_defaults_witness :
    parseExcludeLines ["", "  # comment", "\t"] = [] ∧
    (initHandler "wow" (some (parseExcludeLines ["", "  # comment", "\t"]))
        (some (parseExcludeLines ["", "  # comment", "\t"])) 60 0).excluded_files
        = DEFAULT_EXCLUDED_FILES ∧
    (initHandler "wow" (some (parseExcludeLines ["", "  # comment", "\t"]))
        (some (parseExcludeLines ["", "  # comment", "\t"])) 60 0).excluded_folders
        = DEFAULT_EXCLUDED_FOLDERS :=
  ⟨(empty_override_uses_defaults ["", "  # comment", "\t"] (by decide)).1,
   ((empty_override_uses_defaults ["", "  # comment", "\t"] (by decide)).2 "wow" 60 0).1,
   ((empty_override_uses_defaults ["", "  # comment", "\t"] (by decide)).2 "wow" 60 0).2⟩
